import Mathlib

/-!
Verification of the TRMNL Vienna-weather Flask plugin (src/app.py).

The Python module is embedded shallowly: the pure functions
(`get_simple_weather`, the `WEATHER_CODE_MAP` lookup, the strftime
formatting) become Lean functions; the effectful parts
(`requests.get` + JSON parsing, the timezone lookup, the incoming
HTTP request) become explicit environment values fed to the handler
functions, with one constructor per distinct observable outcome of
the effect.
-/

namespace TrmnlPlugin

/-- A Python value that can appear as a field of the parsed JSON
`current` object: an integer or a string.  (The real API returns
numbers; a string models a malformed numeric field.) -/
inductive PyVal where
  | pyInt (n : Int)
  | pyStr (s : String)
deriving DecidableEq, Repr

/-- Python str() / f-string interpolation of a value. -/
def pyValStr : PyVal → String
  | .pyInt n => toString n
  | .pyStr s => s

/-- Value of a non-empty all-digit character list as a natural
number; none for the empty list or any non-digit character. -/
def digitsToNat? (cs : List Char) : Option Nat :=
  match cs with
  | [] => none
  | _ => if cs.all (fun c => c.isDigit)
         then some (cs.foldl (fun a c => 10 * a + (c.toNat - 48)) 0)
         else none

/-- Decimal integer parse of a string: optional leading minus sign
followed by at least one digit; none otherwise. -/
def pyStrToInt? (s : String) : Option Int :=
  match s.data with
  | '-' :: cs => (digitsToNat? cs).map (fun n => -(n : Int))
  | cs => (digitsToNat? cs).map (fun n => (n : Int))

/-- Python int(v): identity on integers; decimal parse on strings,
raising (modelled as none) when the string is not a decimal numeral. -/
def pyToInt : PyVal → Option Int
  | .pyInt n => some n
  | .pyStr s => pyStrToInt? s

/-- The `WEATHER_CODE_MAP` dict from src/app.py, lines 10-39, as an
association list (insertion order preserved; keys are distinct). -/
def WEATHER_CODE_MAP : List (Int × String) :=
  [(0, "Clear sky"),
   (1, "Mainly clear"),
   (2, "Partly cloudy"),
   (3, "Overcast"),
   (45, "Fog"),
   (48, "Depositing rime fog"),
   (51, "Light drizzle"),
   (53, "Moderate drizzle"),
   (55, "Dense drizzle"),
   (56, "Light freezing drizzle"),
   (57, "Dense freezing drizzle"),
   (61, "Slight rain"),
   (63, "Moderate rain"),
   (65, "Heavy rain"),
   (66, "Light freezing rain"),
   (67, "Heavy freezing rain"),
   (71, "Slight snow fall"),
   (73, "Moderate snow fall"),
   (75, "Heavy snow fall"),
   (77, "Snow grains"),
   (80, "Slight rain showers"),
   (81, "Moderate rain showers"),
   (82, "Violent rain showers"),
   (85, "Slight snow showers"),
   (86, "Heavy snow showers"),
   (95, "Thunderstorm"),
   (96, "Thunderstorm with slight hail"),
   (99, "Thunderstorm with heavy hail")]

/-- WEATHER_CODE_MAP.get(code, "Unknown") from src/app.py line 72:
dict lookup with default "Unknown". -/
def labelFor (code : Int) : String :=
  (WEATHER_CODE_MAP.lookup code).getD "Unknown"

/-- get_simple_weather from src/app.py lines 92-108: the if/elif
chain over the membership lists, verbatim. -/
def get_simple_weather (weather_code : Int) : String :=
  if weather_code ∈ ([0, 1] : List Int) then "Sunny"
  else if weather_code ∈ ([2, 3, 45, 48] : List Int) then "Cloudy"
  else if weather_code ∈ ([51, 53, 55, 56, 57, 61, 63, 65, 66, 67, 80, 81, 82] : List Int) then "Rainy"
  else if weather_code ∈ ([71, 73, 75, 77, 85, 86] : List Int) then "Snowy"
  else if weather_code ∈ ([95, 96, 99] : List Int) then "Thunderstorm"
  else "Other"

/-- The dict returned by get_vienna_weather (keys "temperature",
"weather", "weather_simple"). -/
structure WeatherDict where
  temperature : String
  weather : String
  weather_simple : String
deriving DecidableEq, Repr

/-- The fallback dict built in both except blocks of
get_vienna_weather (src/app.py lines 78-82 and 86-90). -/
def fallbackReading : WeatherDict :=
  ⟨"N/A", "Unknown", "Unknown"⟩

/-- The parsed `current` object of a successful API response:
data.get("current", \x7b\x7d) with each field optional (an absent
`current` key is the object with both fields absent). -/
structure CurrentObj where
  temperature_2m : Option PyVal
  weather_code : Option PyVal
deriving DecidableEq, Repr

/-- Observable outcome of the `requests.get` call plus
`raise_for_status` plus `response.json()` in get_vienna_weather:
either some requests-level failure (network error, timeout, non-2xx
status raised by raise_for_status, malformed JSON body raised by
response.json()) or a successfully parsed body with its `current`
object. -/
inductive FetchEnv where
  | requestError
  | ok (current : CurrentObj)
deriving DecidableEq, Repr

/-- get_vienna_weather from src/app.py lines 41-90.  On
requestError the first except block returns the fallback dict.  On a
parsed body, weather_code is converted with int() (absent means 0); a
conversion failure is a ValueError caught by the generic except
block, which returns the same fallback dict.  Otherwise the result
dict is built: f"\x7btemperature\x7dÂ°C" (the source file literally
contains the bytes C3 82 C2 B0 before the C) when temperature_2m is
present, "N/A" when absent; the label via WEATHER_CODE_MAP.get with
default "Unknown"; the category via get_simple_weather. -/
def get_vienna_weather (env : FetchEnv) : WeatherDict :=
  match env with
  | .requestError => fallbackReading
  | .ok current =>
      match (match current.weather_code with
             | some v => pyToInt v
             | none => some 0) with
      | none => fallbackReading
      | some weather_code_int =>
          ⟨(match current.temperature_2m with
            | some t => pyValStr t ++ "Â°C"
            | none => "N/A"),
           labelFor weather_code_int,
           get_simple_weather weather_code_int⟩

/-- Observable outcome of pytz.timezone + datetime.now in
get_vienna_time: a timezone-resolution failure, or the current Vienna
wall-clock hour (0-23) and minute (0-59). -/
inductive ClockEnv where
  | tzError
  | now (hour : Nat) (minute : Nat)
deriving DecidableEq, Repr

/-- Two-digit zero padding, as strftime does for %I and %M. -/
def pad2 (n : Nat) : String :=
  if n < 10 then "0" ++ toString n else toString n

/-- strftime("%I:%M %p"): zero-padded 12-hour hour (01-12), colon,
zero-padded minute, space, AM for hours 0-11 and PM for 12-23. -/
def strftime_IMp (hour minute : Nat) : String :=
  pad2 (if hour % 12 = 0 then 12 else hour % 12) ++ ":" ++ pad2 minute
    ++ " " ++ (if hour < 12 then "AM" else "PM")

/-- get_vienna_time from src/app.py lines 110-121: format the Vienna
wall clock, or return "N/A" when the timezone lookup raised. -/
def get_vienna_time : ClockEnv → String
  | .tzError => "N/A"
  | .now h m => strftime_IMp h m

/-- An incoming POST to /trml_webhook, reduced to the two facts the
handler can observe: whether the request declares a JSON content type
(Flask request.is_json inspects only the mimetype) and whether the
body parses as JSON (what request.get_json checks). -/
structure WebhookRequest where
  declaresJsonContentType : Bool
  bodyParsesAsJson : Bool
deriving DecidableEq, Repr

/-- What the route handler produces: a jsonified body (an ordered
dict of string pairs) with a status code, or an aborted request where
an exception escaped the handler and Flask serves its default error
page with the given status. -/
inductive HandlerOutcome where
  | respond (body : List (String × String)) (status : Nat)
  | abort (status : Nat)
deriving DecidableEq, Repr

/-- trml_webhook from src/app.py lines 131-146.  request.is_json
tests the declared content type only; when it holds,
request.get_json() parses the body and raises BadRequest (a plain 400
error page) when the body is not valid JSON; when it does not hold,
the else branch answers 400 with the JSON error body. -/
def trml_webhook (req : WebhookRequest) : HandlerOutcome :=
  if req.declaresJsonContentType then
    if req.bodyParsesAsJson then
      .respond [("status", "success"), ("message", "Webhook received")] 200
    else
      .abort 400
  else
    .respond [("status", "error"), ("message", "Request must be JSON")] 400

/-- The dict composed by trml_data (keys "title", "message",
"temperature", "weather"). -/
structure TrmlData where
  title : String
  message : String
  temperature : String
  weather : String
deriving DecidableEq, Repr

/-- trml_data from src/app.py lines 148-164: fetch the weather dict
and the time string, compose the four-key dict, respond 200. -/
def trml_data (env : FetchEnv) (clock : ClockEnv) : TrmlData × Nat :=
  let weather_data := get_vienna_weather env
  let current_time := get_vienna_time clock
  (⟨"Vienna Weather Plugin",
    "Current time in Vienna: " ++ current_time,
    weather_data.temperature,
    weather_data.weather_simple⟩, 200)

/-- Helper: an association-list lookup misses every key not in the
key list. -/
theorem lookup_eq_none_of_not_mem_keys (l : List (Int × String)) (c : Int)
    (h : c ∉ l.map Prod.fst) : l.lookup c = none := by
  induction l with
  | nil => rfl
  | cons p t ih =>
      obtain ⟨k, v⟩ := p
      simp only [List.map_cons, List.mem_cons, not_or] at h
      obtain ⟨h1, h2⟩ := h
      have hk : (c == k) = false := by
        simpa using h1
      simp only [List.lookup, hk]
      exact ih h2

/-- C1: every failure of the weather fetch (network error, non-2xx
status, timeout, malformed JSON body — all surfacing as the
requests-level error — and any exception raised while converting the
weather code during parsing) is absorbed and yields exactly the
fallback reading \x7b temperature "N/A", weather "Unknown",
weather_simple "Unknown" \x7d; the embedded operation is total, so it
never raises. -/
theorem C1_failures_yield_fallback :
    get_vienna_weather .requestError = fallbackReading ∧
    ∀ (cur : CurrentObj) (v : PyVal), cur.weather_code = some v →
      pyToInt v = none → get_vienna_weather (.ok cur) = fallbackReading := by
  refine ⟨rfl, ?_⟩
  intro cur v hv hconv
  simp [get_vienna_weather, hv, hconv]

/-- Witness for C1 at a concrete failing parse: weather code "abc"
cannot be converted by int(). -/
theorem C1_failures_yield_fallback_witness :
    (CurrentObj.mk (some (.pyInt 21)) (some (.pyStr "abc"))).weather_code
        = some (.pyStr "abc") ∧
    pyToInt (.pyStr "abc") = none ∧
    get_vienna_weather (.ok (CurrentObj.mk (some (.pyInt 21)) (some (.pyStr "abc"))))
        = fallbackReading :=
  ⟨rfl, by decide,
   C1_failures_yield_fallback.2 (CurrentObj.mk (some (.pyInt 21)) (some (.pyStr "abc")))
     (.pyStr "abc") rfl (by decide)⟩

/-- C2: get_simple_weather is total on the integers and realises
exactly the fixed partition: codes 0,1 map to Sunny; 2,3,45,48 to
Cloudy; 51,53,55,56,57,61,63,65,66,67,80,81,82 to Rainy;
71,73,75,77,85,86 to Snowy; 95,96,99 to Thunderstorm; every other
integer to Other. -/
theorem C2_category_partition (c : Int) :
    (c ∈ ([0, 1] : List Int) → get_simple_weather c = "Sunny") ∧
    (c ∈ ([2, 3, 45, 48] : List Int) → get_simple_weather c = "Cloudy") ∧
    (c ∈ ([51, 53, 55, 56, 57, 61, 63, 65, 66, 67, 80, 81, 82] : List Int) →
      get_simple_weather c = "Rainy") ∧
    (c ∈ ([71, 73, 75, 77, 85, 86] : List Int) → get_simple_weather c = "Snowy") ∧
    (c ∈ ([95, 96, 99] : List Int) → get_simple_weather c = "Thunderstorm") ∧
    (c ∉ ([0, 1] : List Int) → c ∉ ([2, 3, 45, 48] : List Int) →
      c ∉ ([51, 53, 55, 56, 57, 61, 63, 65, 66, 67, 80, 81, 82] : List Int) →
      c ∉ ([71, 73, 75, 77, 85, 86] : List Int) → c ∉ ([95, 96, 99] : List Int) →
      get_simple_weather c = "Other") := by
  refine ⟨?_, ?_, ?_, ?_, ?_, ?_⟩
  · intro h; fin_cases h <;> decide
  · intro h; fin_cases h <;> decide
  · intro h; fin_cases h <;> decide
  · intro h; fin_cases h <;> decide
  · intro h; fin_cases h <;> decide
  · intro h1 h2 h3 h4 h5
    simp only [get_simple_weather, if_neg h1, if_neg h2, if_neg h3, if_neg h4, if_neg h5]

/-- Witness for C2, one concrete code per cell of the partition. -/
theorem C2_category_partition_witness :
    get_simple_weather 0 = "Sunny" ∧
    get_simple_weather 45 = "Cloudy" ∧
    get_simple_weather 80 = "Rainy" ∧
    get_simple_weather 77 = "Snowy" ∧
    get_simple_weather 99 = "Thunderstorm" ∧
    get_simple_weather 100 = "Other" :=
  ⟨(C2_category_partition 0).1 (by decide),
   (C2_category_partition 45).2.1 (by decide),
   (C2_category_partition 80).2.2.1 (by decide),
   (C2_category_partition 77).2.2.2.1 (by decide),
   (C2_category_partition 99).2.2.2.2.1 (by decide),
   (C2_category_partition 100).2.2.2.2.2 (by decide) (by decide) (by decide)
     (by decide) (by decide)⟩

/-- C3: a successful response whose current object lacks the
weather_code field is treated as code 0: the reading's condition
label is "Clear sky" and its simple category "Sunny". -/
theorem C3_absent_code_treated_as_zero (cur : CurrentObj)
    (h : cur.weather_code = none) :
    (get_vienna_weather (.ok cur)).weather = "Clear sky" ∧
    (get_vienna_weather (.ok cur)).weather_simple = "Sunny" := by
  constructor <;> simp [get_vienna_weather, h] <;> decide

/-- Witness for C3 at a concrete current object with a temperature
but no weather code. -/
theorem C3_absent_code_treated_as_zero_witness :
    (CurrentObj.mk (some (.pyInt 21)) none).weather_code = none ∧
    (get_vienna_weather (.ok (CurrentObj.mk (some (.pyInt 21)) none))).weather
        = "Clear sky" ∧
    (get_vienna_weather (.ok (CurrentObj.mk (some (.pyInt 21)) none))).weather_simple
        = "Sunny" :=
  ⟨rfl,
   (C3_absent_code_treated_as_zero (CurrentObj.mk (some (.pyInt 21)) none) rfl).1,
   (C3_absent_code_treated_as_zero (CurrentObj.mk (some (.pyInt 21)) none) rfl).2⟩

/-- Counterexample to C4 as stated: a POST whose body is valid JSON
but whose content type is not declared as JSON (request.is_json only
inspects the mimetype) is answered with the 400 error body, not the
200 success body the claim requires. -/
theorem C4_counterexample :
    trml_webhook (WebhookRequest.mk false true)
        = .respond [("status", "error"), ("message", "Request must be JSON")] 400 ∧
    trml_webhook (WebhookRequest.mk false true)
        ≠ .respond [("status", "success"), ("message", "Webhook received")] 200 := by
  decide

/-- C4 amended: a POST that declares a JSON content type and whose
body parses as JSON gets status 200 with the success body; a POST
that does not declare a JSON content type gets status 400 with the
error body, whatever its body. -/
theorem C4_webhook_amended (req : WebhookRequest) :
    (req.declaresJsonContentType = true → req.bodyParsesAsJson = true →
      trml_webhook req
        = .respond [("status", "success"), ("message", "Webhook received")] 200) ∧
    (req.declaresJsonContentType = false →
      trml_webhook req
        = .respond [("status", "error"), ("message", "Request must be JSON")] 400) := by
  refine ⟨?_, ?_⟩
  · intro h1 h2
    simp [trml_webhook, h1, h2]
  · intro h1
    simp [trml_webhook, h1]

/-- Witness for the amended C4 on both branches. -/
theorem C4_webhook_amended_witness :
    trml_webhook (WebhookRequest.mk true true)
        = .respond [("status", "success"), ("message", "Webhook received")] 200 ∧
    trml_webhook (WebhookRequest.mk false false)
        = .respond [("status", "error"), ("message", "Request must be JSON")] 400 :=
  ⟨(C4_webhook_amended (WebhookRequest.mk true true)).1 rfl rfl,
   (C4_webhook_amended (WebhookRequest.mk false false)).2 rfl⟩

/-- C5: every GET to /trml_data is answered with status 200 and the
four-key dict whose title is "Vienna Weather Plugin", whose message
is "Current time in Vienna: " followed by the clock result, whose
temperature is the reading's temperature label and whose weather is
the reading's simple category, for every fetch and clock outcome; in
particular, when the outbound weather call fails the temperature and
weather fields still carry the fallback strings. -/
theorem C5_trml_data_contract (env : FetchEnv) (clock : ClockEnv) :
    trml_data env clock =
      (TrmlData.mk "Vienna Weather Plugin"
        ("Current time in Vienna: " ++ get_vienna_time clock)
        (get_vienna_weather env).temperature
        (get_vienna_weather env).weather_simple, 200) ∧
    (trml_data .requestError clock).1.temperature = "N/A" ∧
    (trml_data .requestError clock).1.weather = "Unknown" :=
  ⟨rfl, rfl, rfl⟩

/-- The code evaluated at C6's failing input: the temperature label
the handler actually builds for a successful response with
temperature 21 is "21Â°C" — the source file's f-string suffix holds
the bytes C3 82 C2 B0 43, i.e. a stray U+00C2 before the degree sign
— which differs from the "21°C" the claim requires. -/
theorem C6_temperature_suffix_eval :
    (get_vienna_weather (.ok (CurrentObj.mk (some (.pyInt 21)) (some (.pyInt 0))))).temperature
        = "21Â°C" ∧
    ("21Â°C" : String) ≠ "21°C" ∧
    (get_vienna_weather (.ok (CurrentObj.mk none (some (.pyInt 0))))).temperature
        = "N/A" := by
  refine ⟨rfl, ?_, rfl⟩
  decide

/-- C7: labelFor is total on the integers, returns the table's label
for every code in WEATHER_CODE_MAP, and "Unknown" for every code
outside the table's key set, in particular for 999. -/
theorem C7_labelFor_total :
    (∀ (c : Int) (s : String), (c, s) ∈ WEATHER_CODE_MAP → labelFor c = s) ∧
    (∀ c : Int, c ∉ WEATHER_CODE_MAP.map Prod.fst → labelFor c = "Unknown") ∧
    labelFor 999 = "Unknown" := by
  refine ⟨?_, ?_, by decide⟩
  · intro c s h
    simp only [WEATHER_CODE_MAP] at h
    fin_cases h <;> decide
  · intro c h
    unfold labelFor
    rw [lookup_eq_none_of_not_mem_keys WEATHER_CODE_MAP c h]
    rfl

/-- Witness for C7 at concrete codes: a mapped code, an unmapped one
and the spec's example 999. -/
theorem C7_labelFor_total_witness :
    labelFor 45 = "Fog" ∧ labelFor 100 = "Unknown" ∧ labelFor 999 = "Unknown" :=
  ⟨C7_labelFor_total.1 45 "Fog" (by decide),
   C7_labelFor_total.2.1 100 (by decide),
   C7_labelFor_total.2.2⟩

/-- C8: the clock operation is total (never raises): a timezone
failure yields the literal "N/A", and any wall-clock instant is
rendered as a zero-padded 12-hour clock with AM/PM suffix — the
rendered hour hh lies in 1..12 and agrees with the real hour modulo
12, both fields are zero-padded to two digits, and the suffix is AM
before noon and PM after; e.g. 14:47 renders as "02:47 PM". -/
theorem C8_time_format :
    get_vienna_time .tzError = "N/A" ∧
    get_vienna_time (.now 14 47) = "02:47 PM" ∧
    ∀ h m : Nat, ∃ hh : Nat,
      1 ≤ hh ∧ hh ≤ 12 ∧ hh % 12 = h % 12 ∧
      get_vienna_time (.now h m)
        = pad2 hh ++ ":" ++ pad2 m ++ " " ++ (if h < 12 then "AM" else "PM") := by
  refine ⟨rfl, by decide, ?_⟩
  intro h m
  refine ⟨if h % 12 = 0 then 12 else h % 12, ?_, ?_, ?_, rfl⟩
  · split <;> omega
  · split <;> omega
  · split <;> omega

/-- C9: the label table and the category partition cover exactly the
same codes: an integer code gets the default label "Unknown"
precisely when it gets the default category "Other". -/
theorem C9_label_category_domains_agree (c : Int) :
    labelFor c = "Unknown" ↔ get_simple_weather c = "Other" := by
  by_cases hc : c ∈ WEATHER_CODE_MAP.map Prod.fst
  · have hc' : c ∈ ([0, 1, 2, 3, 45, 48, 51, 53, 55, 56, 57, 61, 63, 65, 66, 67,
        71, 73, 75, 77, 80, 81, 82, 85, 86, 95, 96, 99] : List Int) := by
      simpa [WEATHER_CODE_MAP] using hc
    fin_cases hc' <;> decide
  · have h1 : c ∉ ([0, 1] : List Int) :=
      fun h => hc (by fin_cases h <;> decide)
    have h2 : c ∉ ([2, 3, 45, 48] : List Int) :=
      fun h => hc (by fin_cases h <;> decide)
    have h3 : c ∉ ([51, 53, 55, 56, 57, 61, 63, 65, 66, 67, 80, 81, 82] : List Int) :=
      fun h => hc (by fin_cases h <;> decide)
    have h4 : c ∉ ([71, 73, 75, 77, 85, 86] : List Int) :=
      fun h => hc (by fin_cases h <;> decide)
    have h5 : c ∉ ([95, 96, 99] : List Int) :=
      fun h => hc (by fin_cases h <;> decide)
    have hl : labelFor c = "Unknown" := by
      unfold labelFor
      rw [lookup_eq_none_of_not_mem_keys WEATHER_CODE_MAP c hc]
      rfl
    have hg : get_simple_weather c = "Other" := by
      simp only [get_simple_weather, if_neg h1, if_neg h2, if_neg h3, if_neg h4, if_neg h5]
    rw [hl, hg]
    simp

/-- C10: a successful, well-formed response whose weather_code is
present but not convertible by int() makes the whole result the
fallback reading — the temperature is discarded even when
temperature_2m is present. -/
theorem C10_bad_code_discards_temperature (cur : CurrentObj) (t v : PyVal)
    (ht : cur.temperature_2m = some t) (hv : cur.weather_code = some v)
    (hconv : pyToInt v = none) :
    get_vienna_weather (.ok cur) = fallbackReading := by
  simp [get_vienna_weather, hv, hconv]

/-- Witness for C10: temperature 21 present, weather code the
non-numeric string "storm". -/
theorem C10_bad_code_discards_temperature_witness :
    pyToInt (.pyStr "storm") = none ∧
    get_vienna_weather (.ok (CurrentObj.mk (some (.pyInt 21)) (some (.pyStr "storm"))))
        = fallbackReading :=
  ⟨by decide,
   C10_bad_code_discards_temperature
     (CurrentObj.mk (some (.pyInt 21)) (some (.pyStr "storm")))
     (.pyInt 21) (.pyStr "storm") rfl rfl (by decide)⟩

end TrmnlPlugin
